import Mathlib

/-!
Shallow embedding of the GoogleStorage flydrive driver
(source: src/src/Drivers/index.js).

The driver holds a single piece of mutable state: a Resetable cell
storing the bucket name (field _bucket in the source).  Every operation
is modelled as a pure function from the cell state (plus the inputs and
the outcome the backend would report) to a triple
(result, new cell state, trace of observable events).
The trace records each selector resolution (a pull of the Resetable),
each outbound backend request with the bucket it targets, and the one
local filesystem action (mkdir of the tmp directory in download).
Backend outcomes are parameters: an Option Err for each callback that
can fail, a Bool or String for data the backend returns.
-/

/-- Error payload reported by the backend; propagated verbatim by the driver. -/
abbrev Err := String

/-- The Resetable cell from the resetable npm package, as used for _bucket:
it keeps the originally configured value and a current value; set overwrites
the current value, pull reads the current value and resets it to the original. -/
structure Resetable where
  original : String
  val : String
deriving DecidableEq, Repr

/-- new Resetable(config.bucket): both stored values start as the configured bucket. -/
def Resetable.init (v : String) : Resetable := ⟨v, v⟩

/-- Resetable set: overwrite the current value. -/
def Resetable.set (r : Resetable) (v : String) : Resetable := { r with val := v }

/-- Resetable pull: return the current value and reset it to the original. -/
def Resetable.pull (r : Resetable) : String × Resetable := (r.val, ⟨r.original, r.original⟩)

/-- Observable events of one driver call: selector resolutions, outbound
backend requests (each tagged with the bucket it targets), and the local
mkdir performed by download. -/
inductive Event where
  | pull (bucket : String)
  | existsReq (bucket location : String)
  | signedUrlReq (bucket location expiry : String)
  | uploadReq (bucket content destination : String)
  | deleteReq (bucket location : String)
  | copyReq (srcBucket src destBucket dest : String)
  | moveReq (srcBucket src destBucket dest : String)
  | makePublicReq (bucket location : String)
  | makePrivateReq (bucket location : String)
  | readStreamReq (bucket location : String)
  | getReq (bucket location : String)
  | downloadReq (bucket location destination : String)
  | mkdir (dir : String)
deriving DecidableEq, Repr

namespace GoogleStorage

/-- The URL template of getUrl: plain string concatenation, no escaping. -/
def template (bucket location : String) : String :=
  "https://storage.googleapis.com/" ++ bucket ++ "/" ++ location

/-- bucket(bucket): store an override in the Resetable cell and return this. -/
def bucket (s : Resetable) (b : String) : Resetable := s.set b

/-- exists(location): pull the selector, issue a file-exists request, forward
the backend boolean or reject with the backend error. -/
def existsOp (s : Resetable) (location : String) (err : Option Err) (ex : Bool) :
    Except Err Bool × Resetable × List Event :=
  let bkt := s.pull.1
  ((match err with
    | some e => Except.error e
    | none => Except.ok ex),
   s.pull.2, [Event.pull bkt, Event.existsReq bkt location])

/-- getUrl(location, bucket): the JS parameter default is
bucket = bucket or pull, a truthiness test, so an absent argument (none)
and an empty string both fall back to pulling the selector; a non-empty
explicit bucket is used as is and the selector is not touched. -/
def getUrl (s : Resetable) (location : String) (bucketArg : Option String) :
    String × Resetable × List Event :=
  match bucketArg with
  | some b =>
      if b = "" then
        (template s.pull.1 location, s.pull.2, [Event.pull s.pull.1])
      else
        (template b location, s, [])
  | none => (template s.pull.1 location, s.pull.2, [Event.pull s.pull.1])

/-- getSignedUrl(location, expiry): pull, request a signed URL, forward the
backend string or reject with the backend error. -/
def getSignedUrl (s : Resetable) (location expiry : String)
    (err : Option Err) (signedUrl : String) :
    Except Err String × Resetable × List Event :=
  let bkt := s.pull.1
  ((match err with
    | some e => Except.error e
    | none => Except.ok signedUrl),
   s.pull.2, [Event.pull bkt, Event.signedUrlReq bkt location expiry])

/-- put(location, content, options): pull, upload content with destination
location (content type looked up from the location, not modelled), and on
success resolve getUrl(location, pull()) — note the second pull inside the
success callback. -/
def put (s : Resetable) (location content : String) (err : Option Err) :
    Except Err String × Resetable × List Event :=
  let bkt := s.pull.1
  let s1 := s.pull.2
  let ev0 : List Event := [Event.pull bkt, Event.uploadReq bkt content location]
  match err with
  | some e => (Except.error e, s1, ev0)
  | none =>
      let bkt2 := s1.pull.1
      let s2 := s1.pull.2
      let g := getUrl s2 location (some bkt2)
      (Except.ok g.1, g.2.1, ev0 ++ [Event.pull bkt2] ++ g.2.2)

/-- delete(location): pull, issue a delete request, resolve true on success. -/
def delete (s : Resetable) (location : String) (err : Option Err) :
    Except Err Bool × Resetable × List Event :=
  let bkt := s.pull.1
  ((match err with
    | some e => Except.error e
    | none => Except.ok true),
   s.pull.2, [Event.pull bkt, Event.deleteReq bkt location])

/-- makePublic(location): pull, issue a makePublic ACL request against the
pulled bucket, resolve true on success. -/
def makePublic (s : Resetable) (location : String) (err : Option Err) :
    Except Err Bool × Resetable × List Event :=
  let bkt := s.pull.1
  ((match err with
    | some e => Except.error e
    | none => Except.ok true),
   s.pull.2, [Event.pull bkt, Event.makePublicReq bkt location])

/-- makePrivate(location): pull, issue a makePrivate ACL request, resolve true. -/
def makePrivate (s : Resetable) (location : String) (err : Option Err) :
    Except Err Bool × Resetable × List Event :=
  let bkt := s.pull.1
  ((match err with
    | some e => Except.error e
    | none => Except.ok true),
   s.pull.2, [Event.pull bkt, Event.makePrivateReq bkt location])

/-- copy(src, dest, destBucket, options): pull once for the source bucket,
default destBucket to it under JS truthiness, issue the backend copy; on
success, if options.public is exactly true, call this.makePublic(dest)
(which pulls the selector again) and only then resolve
getUrl(dest, destBucket); any error rejects as is. -/
def copy (s : Resetable) (src dest : String) (destBucket : Option String)
    (pub : Bool) (copyErr mpErr : Option Err) :
    Except Err String × Resetable × List Event :=
  let bkt := s.pull.1
  let s1 := s.pull.2
  let db := match destBucket with
    | some d => if d = "" then bkt else d
    | none => bkt
  let ev0 : List Event := [Event.pull bkt, Event.copyReq bkt src db dest]
  match copyErr with
  | some e => (Except.error e, s1, ev0)
  | none =>
      if pub then
        let m := makePublic s1 dest mpErr
        match m.1 with
        | Except.error e => (Except.error e, m.2.1, ev0 ++ m.2.2)
        | Except.ok _ =>
            let g := getUrl m.2.1 dest (some db)
            (Except.ok g.1, g.2.1, ev0 ++ m.2.2 ++ g.2.2)
      else
        let g := getUrl s1 dest (some db)
        (Except.ok g.1, g.2.1, ev0 ++ g.2.2)

/-- move(src, dest, destBucket, options): identical shape to copy with the
backend move primitive as the first step. -/
def move (s : Resetable) (src dest : String) (destBucket : Option String)
    (pub : Bool) (moveErr mpErr : Option Err) :
    Except Err String × Resetable × List Event :=
  let bkt := s.pull.1
  let s1 := s.pull.2
  let db := match destBucket with
    | some d => if d = "" then bkt else d
    | none => bkt
  let ev0 : List Event := [Event.pull bkt, Event.moveReq bkt src db dest]
  match moveErr with
  | some e => (Except.error e, s1, ev0)
  | none =>
      if pub then
        let m := makePublic s1 dest mpErr
        match m.1 with
        | Except.error e => (Except.error e, m.2.1, ev0 ++ m.2.2)
        | Except.ok _ =>
            let g := getUrl m.2.1 dest (some db)
            (Except.ok g.1, g.2.1, ev0 ++ m.2.2 ++ g.2.2)
      else
        let g := getUrl s1 dest (some db)
        (Except.ok g.1, g.2.1, ev0 ++ g.2.2)

/-- getStream(location): synchronous; pull and open a read stream. -/
def getStream (s : Resetable) (location : String) :
    Resetable × List Event :=
  let bkt := s.pull.1
  (s.pull.2, [Event.pull bkt, Event.readStreamReq bkt location])

/-- getObject(location): pull, request the file object, forward it (opaque
here) or reject with the backend error. -/
def getObject (s : Resetable) (location : String) (err : Option Err) :
    Except Err Unit × Resetable × List Event :=
  let bkt := s.pull.1
  ((match err with
    | some e => Except.error e
    | none => Except.ok ()),
   s.pull.2, [Event.pull bkt, Event.getReq bkt location])

/-- download(location): synthesize dest as tmp/MILLIS-location, mkdir tmp if
absent, then pull and issue the backend download to dest; resolve dest. -/
def download (s : Resetable) (location : String) (nowMillis : Nat)
    (tmpExists : Bool) (err : Option Err) :
    Except Err String × Resetable × List Event :=
  let dir := "tmp"
  let dest := dir ++ "/" ++ Nat.repr nowMillis ++ "-" ++ location
  let ev0 : List Event := if tmpExists then [] else [Event.mkdir dir]
  let bkt := s.pull.1
  ((match err with
    | some e => Except.error e
    | none => Except.ok dest),
   s.pull.2, ev0 ++ [Event.pull bkt, Event.downloadReq bkt location dest])

/-- The destination bucket copy and move actually use, as a function of the
cell state at call time and the destBucket argument (JS truthiness default
to the pulled source bucket). -/
def destB (s : Resetable) (destBucket : Option String) : String :=
  match destBucket with
  | some d => if d = "" then s.val else d
  | none => s.val

end GoogleStorage

/-- True exactly on selector-resolution events. -/
def Event.isPull : Event → Bool
  | Event.pull _ => true
  | _ => false

/-- True exactly on outbound backend requests (mkdir is local, pull is not a request). -/
def Event.isBackendReq : Event → Bool
  | Event.pull _ => false
  | Event.mkdir _ => false
  | _ => true

/-- True exactly on makePublic ACL requests. -/
def Event.isMakePublicReq : Event → Bool
  | Event.makePublicReq _ _ => true
  | _ => false

/-- Number of selector resolutions in a trace. -/
def pullCount (t : List Event) : Nat := (t.filter Event.isPull).length

/-- Number of selector resolutions occurring strictly before the first
outbound backend request of a trace. -/
def pullsBeforeFirstReq : List Event → Nat
  | [] => 0
  | e :: rest =>
      if e.isBackendReq then 0
      else (if e.isPull then 1 else 0) + pullsBeforeFirstReq rest

/-- One call of a bucket-using driver operation: the cell state at entry,
the call inputs, and the outcome the backend reports. -/
inductive OpCall where
  | existsC (s : Resetable) (location : String) (err : Option Err) (ex : Bool)
  | signedUrlC (s : Resetable) (location expiry : String) (err : Option Err) (su : String)
  | putC (s : Resetable) (location content : String) (err : Option Err)
  | deleteC (s : Resetable) (location : String) (err : Option Err)
  | copyC (s : Resetable) (src dest : String) (db : Option String) (pub : Bool) (cE mpE : Option Err)
  | moveC (s : Resetable) (src dest : String) (db : Option String) (pub : Bool) (cE mpE : Option Err)
  | makePublicC (s : Resetable) (location : String) (err : Option Err)
  | makePrivateC (s : Resetable) (location : String) (err : Option Err)
  | streamC (s : Resetable) (location : String)
  | objectC (s : Resetable) (location : String) (err : Option Err)
  | downloadC (s : Resetable) (location : String) (millis : Nat) (tmpE : Bool) (err : Option Err)
deriving DecidableEq, Repr

/-- The cell state a call starts from. -/
def OpCall.state : OpCall → Resetable
  | existsC s _ _ _ => s
  | signedUrlC s _ _ _ _ => s
  | putC s _ _ _ => s
  | deleteC s _ _ => s
  | copyC s _ _ _ _ _ _ => s
  | moveC s _ _ _ _ _ _ => s
  | makePublicC s _ _ => s
  | makePrivateC s _ _ => s
  | streamC s _ => s
  | objectC s _ _ => s
  | downloadC s _ _ _ _ => s

/-- The event trace the call produces. -/
def OpCall.trace : OpCall → List Event
  | existsC s loc err ex => (GoogleStorage.existsOp s loc err ex).2.2
  | signedUrlC s loc expiry err su => (GoogleStorage.getSignedUrl s loc expiry err su).2.2
  | putC s loc content err => (GoogleStorage.put s loc content err).2.2
  | deleteC s loc err => (GoogleStorage.delete s loc err).2.2
  | copyC s src dest db pub cE mpE => (GoogleStorage.copy s src dest db pub cE mpE).2.2
  | moveC s src dest db pub cE mpE => (GoogleStorage.move s src dest db pub cE mpE).2.2
  | makePublicC s loc err => (GoogleStorage.makePublic s loc err).2.2
  | makePrivateC s loc err => (GoogleStorage.makePrivate s loc err).2.2
  | streamC s loc => (GoogleStorage.getStream s loc).2
  | objectC s loc err => (GoogleStorage.getObject s loc err).2.2
  | downloadC s loc millis tmpE err => (GoogleStorage.download s loc millis tmpE err).2.2

/-- Selector resolutions a call performs beyond the initial one: put pulls a
second time in its success callback, and copy and move pull a second time
inside the nested makePublic when options.public is true and the primary
backend step succeeded. -/
def OpCall.extraPulls : OpCall → Nat
  | putC _ _ _ err => if err = none then 1 else 0
  | copyC _ _ _ _ pub cE _ => if pub then (if cE = none then 1 else 0) else 0
  | moveC _ _ _ _ pub cE _ => if pub then (if cE = none then 1 else 0) else 0
  | _ => 0

/-- Well-configured call: the cell holds non-empty bucket names, ruling out
the degenerate empty-string fallback branches of the JS truthiness tests. -/
abbrev OpCall.wellFormed (c : OpCall) : Prop :=
  c.state.val ≠ "" ∧ c.state.original ≠ ""

/-- With a non-empty explicit bucket argument, getUrl is the pure template
and the call has no effect and no trace. -/
theorem getUrl_truthy (s : Resetable) (loc b : String) (h : b ≠ "") :
    GoogleStorage.getUrl s loc (some b) =
      (GoogleStorage.template b loc, s, ([] : List Event)) := by
  simp [GoogleStorage.getUrl, h]

/-- The destination bucket copy and move compute internally agrees with destB. -/
theorem destB_ne (s : Resetable) (db : Option String) (h : s.val ≠ "") :
    GoogleStorage.destB s db ≠ "" := by
  cases db with
  | none => exact h
  | some d =>
      by_cases hd : d = "" <;> simp [GoogleStorage.destB, hd, h]

/-- copy when the backend reports an error on the primary step. -/
theorem copy_err_case (s : Resetable) (src dest : String) (db : Option String)
    (pub : Bool) (mpErr : Option Err) (e : Err) :
    GoogleStorage.copy s src dest db pub (some e) mpErr =
      (Except.error e, (⟨s.original, s.original⟩ : Resetable),
       [Event.pull s.val, Event.copyReq s.val src (GoogleStorage.destB s db) dest]) := by
  cases db with
  | none => rfl
  | some d =>
      by_cases hd : d = "" <;>
        simp [GoogleStorage.copy, GoogleStorage.destB, Resetable.pull, hd]

/-- copy success without the publicize option. -/
theorem copy_ok_nonpub (s : Resetable) (src dest : String) (db : Option String)
    (mpErr : Option Err) (h : GoogleStorage.destB s db ≠ "") :
    GoogleStorage.copy s src dest db false none mpErr =
      (Except.ok (GoogleStorage.template (GoogleStorage.destB s db) dest),
       (⟨s.original, s.original⟩ : Resetable),
       [Event.pull s.val, Event.copyReq s.val src (GoogleStorage.destB s db) dest]) := by
  cases db with
  | none =>
      simp [GoogleStorage.destB] at h
      simp [GoogleStorage.copy, GoogleStorage.getUrl, GoogleStorage.destB,
        Resetable.pull, h]
  | some d =>
      by_cases hd : d = "" <;>
        simp [GoogleStorage.destB, hd] at h <;>
        simp [GoogleStorage.copy, GoogleStorage.getUrl, GoogleStorage.destB,
          Resetable.pull, hd, h]

/-- copy success with options.public true and a failing makePublic step. -/
theorem copy_pub_mpfail (s : Resetable) (src dest : String) (db : Option String)
    (e : Err) :
    GoogleStorage.copy s src dest db true none (some e) =
      (Except.error e, (⟨s.original, s.original⟩ : Resetable),
       [Event.pull s.val, Event.copyReq s.val src (GoogleStorage.destB s db) dest,
        Event.pull s.original, Event.makePublicReq s.original dest]) := by
  cases db with
  | none =>
      simp [GoogleStorage.copy, GoogleStorage.makePublic, GoogleStorage.destB,
        Resetable.pull]
  | some d =>
      by_cases hd : d = "" <;>
        simp [GoogleStorage.copy, GoogleStorage.makePublic, GoogleStorage.destB,
          Resetable.pull, hd]

/-- copy success with options.public true and a successful makePublic step. -/
theorem copy_pub_ok (s : Resetable) (src dest : String) (db : Option String)
    (h : GoogleStorage.destB s db ≠ "") :
    GoogleStorage.copy s src dest db true none none =
      (Except.ok (GoogleStorage.template (GoogleStorage.destB s db) dest),
       (⟨s.original, s.original⟩ : Resetable),
       [Event.pull s.val, Event.copyReq s.val src (GoogleStorage.destB s db) dest,
        Event.pull s.original, Event.makePublicReq s.original dest]) := by
  cases db with
  | none =>
      simp [GoogleStorage.destB] at h
      simp [GoogleStorage.copy, GoogleStorage.makePublic, GoogleStorage.getUrl,
        GoogleStorage.destB, Resetable.pull, h]
  | some d =>
      by_cases hd : d = "" <;>
        simp [GoogleStorage.destB, hd] at h <;>
        simp [GoogleStorage.copy, GoogleStorage.makePublic, GoogleStorage.getUrl,
          GoogleStorage.destB, Resetable.pull, hd, h]

/-- move when the backend reports an error on the primary step. -/
theorem move_err_case (s : Resetable) (src dest : String) (db : Option String)
    (pub : Bool) (mpErr : Option Err) (e : Err) :
    GoogleStorage.move s src dest db pub (some e) mpErr =
      (Except.error e, (⟨s.original, s.original⟩ : Resetable),
       [Event.pull s.val, Event.moveReq s.val src (GoogleStorage.destB s db) dest]) := by
  cases db with
  | none => rfl
  | some d =>
      by_cases hd : d = "" <;>
        simp [GoogleStorage.move, GoogleStorage.destB, Resetable.pull, hd]

/-- move success without the publicize option. -/
theorem move_ok_nonpub (s : Resetable) (src dest : String) (db : Option String)
    (mpErr : Option Err) (h : GoogleStorage.destB s db ≠ "") :
    GoogleStorage.move s src dest db false none mpErr =
      (Except.ok (GoogleStorage.template (GoogleStorage.destB s db) dest),
       (⟨s.original, s.original⟩ : Resetable),
       [Event.pull s.val, Event.moveReq s.val src (GoogleStorage.destB s db) dest]) := by
  cases db with
  | none =>
      simp [GoogleStorage.destB] at h
      simp [GoogleStorage.move, GoogleStorage.getUrl, GoogleStorage.destB,
        Resetable.pull, h]
  | some d =>
      by_cases hd : d = "" <;>
        simp [GoogleStorage.destB, hd] at h <;>
        simp [GoogleStorage.move, GoogleStorage.getUrl, GoogleStorage.destB,
          Resetable.pull, hd, h]

/-- move success with options.public true and a failing makePublic step. -/
theorem move_pub_mpfail (s : Resetable) (src dest : String) (db : Option String)
    (e : Err) :
    GoogleStorage.move s src dest db true none (some e) =
      (Except.error e, (⟨s.original, s.original⟩ : Resetable),
       [Event.pull s.val, Event.moveReq s.val src (GoogleStorage.destB s db) dest,
        Event.pull s.original, Event.makePublicReq s.original dest]) := by
  cases db with
  | none =>
      simp [GoogleStorage.move, GoogleStorage.makePublic, GoogleStorage.destB,
        Resetable.pull]
  | some d =>
      by_cases hd : d = "" <;>
        simp [GoogleStorage.move, GoogleStorage.makePublic, GoogleStorage.destB,
          Resetable.pull, hd]

/-- move success with options.public true and a successful makePublic step. -/
theorem move_pub_ok (s : Resetable) (src dest : String) (db : Option String)
    (h : GoogleStorage.destB s db ≠ "") :
    GoogleStorage.move s src dest db true none none =
      (Except.ok (GoogleStorage.template (GoogleStorage.destB s db) dest),
       (⟨s.original, s.original⟩ : Resetable),
       [Event.pull s.val, Event.moveReq s.val src (GoogleStorage.destB s db) dest,
        Event.pull s.original, Event.makePublicReq s.original dest]) := by
  cases db with
  | none =>
      simp [GoogleStorage.destB] at h
      simp [GoogleStorage.move, GoogleStorage.makePublic, GoogleStorage.getUrl,
        GoogleStorage.destB, Resetable.pull, h]
  | some d =>
      by_cases hd : d = "" <;>
        simp [GoogleStorage.destB, hd] at h <;>
        simp [GoogleStorage.move, GoogleStorage.makePublic, GoogleStorage.getUrl,
          GoogleStorage.destB, Resetable.pull, hd, h]

/-- put on a successful upload: the second pull yields the configured
original bucket, so the returned URL is built from it, not from the bucket
the upload went to. -/
theorem put_ok_case (s : Resetable) (loc content : String) (h : s.original ≠ "") :
    GoogleStorage.put s loc content none =
      (Except.ok (GoogleStorage.template s.original loc),
       (⟨s.original, s.original⟩ : Resetable),
       [Event.pull s.val, Event.uploadReq s.val content loc, Event.pull s.original]) := by
  simp [GoogleStorage.put, GoogleStorage.getUrl, Resetable.pull, h]

/-- Claim C2: for every location and every explicitly supplied non-empty
bucket name b, getUrl(location, b) returns exactly the string
https://storage.googleapis.com/ ++ b ++ / ++ location by plain
concatenation (no escaping), leaves the selector cell untouched and issues
no backend request, so the result is independent of whether the object
exists or is public. -/
theorem getUrl_explicit_bucket_exact (s : Resetable) (location b : String)
    (h : b ≠ "") :
    GoogleStorage.getUrl s location (some b) =
      ("https://storage.googleapis.com/" ++ b ++ "/" ++ location, s,
       ([] : List Event)) := by
  simp [GoogleStorage.getUrl, GoogleStorage.template, h]

/-- Witness for C2 at a concrete location and bucket. -/
theorem getUrl_explicit_bucket_exact_witness :
    ("photos" : String) ≠ "" ∧
    GoogleStorage.getUrl (Resetable.init "app-bucket") "a/b.txt" (some "photos") =
      ("https://storage.googleapis.com/" ++ "photos" ++ "/" ++ "a/b.txt",
       Resetable.init "app-bucket", ([] : List Event)) :=
  ⟨by decide,
   getUrl_explicit_bucket_exact (Resetable.init "app-bucket") "a/b.txt" "photos"
     (by decide)⟩

/-- Claim C3: after bucket(b), the next operation that resolves its bucket
(here exists) uses b, and a second subsequent operation uses the configured
default bucket: the override is read-then-cleared by exactly one resolution,
and the cell is back to its initial state right after the first operation. -/
theorem override_consumed_exactly_once (cfg b loc1 loc2 : String)
    (e1 e2 : Option Err) (x1 x2 : Bool) :
    (GoogleStorage.existsOp (GoogleStorage.bucket (Resetable.init cfg) b) loc1 e1 x1).2.2 =
      [Event.pull b, Event.existsReq b loc1] ∧
    (GoogleStorage.existsOp (GoogleStorage.bucket (Resetable.init cfg) b) loc1 e1 x1).2.1 =
      Resetable.init cfg ∧
    (GoogleStorage.existsOp
        (GoogleStorage.existsOp (GoogleStorage.bucket (Resetable.init cfg) b) loc1 e1 x1).2.1
        loc2 e2 x2).2.2 =
      [Event.pull cfg, Event.existsReq cfg loc2] :=
  ⟨rfl, rfl, rfl⟩

/-- Claim C9: the bucket arguments are tested for JS truthiness, not
presence: an explicit empty-string bucket to getUrl behaves exactly like an
absent one, and an explicit empty-string destBucket to copy and move gives
exactly the same result, state and trace as an absent destBucket. -/
theorem empty_bucket_arg_like_absent (s : Resetable) (loc src dest : String)
    (pub : Bool) (cE mpE : Option Err) :
    GoogleStorage.getUrl s loc (some "") = GoogleStorage.getUrl s loc none ∧
    GoogleStorage.copy s src dest (some "") pub cE mpE =
      GoogleStorage.copy s src dest none pub cE mpE ∧
    GoogleStorage.move s src dest (some "") pub cE mpE =
      GoogleStorage.move s src dest none pub cE mpE := by
  refine ⟨?_, ?_, ?_⟩ <;>
    simp [GoogleStorage.getUrl, GoogleStorage.copy, GoogleStorage.move]

/-- Claim C10: getUrl with a non-empty explicit bucket leaves the selector
cell completely unchanged, so an override stored by a prior bucket(ov) call
is not consumed and is still used by the next operation that resolves the
selector. -/
theorem getUrl_explicit_preserves_override (s : Resetable)
    (cfg ov loc loc2 b : String) (e : Option Err) (x : Bool) (h : b ≠ "") :
    (GoogleStorage.getUrl s loc (some b)).2.1 = s ∧
    (GoogleStorage.existsOp
        (GoogleStorage.getUrl (GoogleStorage.bucket (Resetable.init cfg) ov) loc
          (some b)).2.1
        loc2 e x).2.2 =
      [Event.pull ov, Event.existsReq ov loc2] := by
  constructor
  · simp [GoogleStorage.getUrl, h]
  · simp [GoogleStorage.getUrl, GoogleStorage.existsOp, GoogleStorage.bucket,
      Resetable.init, Resetable.set, Resetable.pull, h]

/-- Witness for C10 at concrete values. -/
theorem getUrl_explicit_preserves_override_witness :
    ("photos" : String) ≠ "" ∧
    ((GoogleStorage.getUrl (Resetable.init "cfg-b") "x.txt" (some "photos")).2.1 =
       Resetable.init "cfg-b" ∧
     (GoogleStorage.existsOp
         (GoogleStorage.getUrl
           (GoogleStorage.bucket (Resetable.init "cfg-b") "ovr-b") "x.txt"
           (some "photos")).2.1
         "y.txt" none true).2.2 =
       [Event.pull "ovr-b", Event.existsReq "ovr-b" "y.txt"]) :=
  ⟨by decide,
   getUrl_explicit_preserves_override (Resetable.init "cfg-b") "cfg-b" "ovr-b"
     "x.txt" "y.txt" "photos" none true (by decide)⟩

/-- Counterexample to claim C1: a successful put resolves the selector
twice, not exactly once — the success callback pulls the cell a second time
to build the returned URL, so with an override pending the upload goes to
the override bucket while the returned URL names the default bucket. -/
theorem put_resolves_selector_twice :
    pullCount (GoogleStorage.put
      (GoogleStorage.bucket (Resetable.init "default-b") "other-b")
      "file.txt" "hello" none).2.2 = 2 ∧
    pullCount (GoogleStorage.put
      (GoogleStorage.bucket (Resetable.init "default-b") "other-b")
      "file.txt" "hello" none).2.2 ≠ 1 ∧
    (GoogleStorage.put
      (GoogleStorage.bucket (Resetable.init "default-b") "other-b")
      "file.txt" "hello" none).2.2 =
      [Event.pull "other-b", Event.uploadReq "other-b" "hello" "file.txt",
       Event.pull "default-b"] ∧
    (GoogleStorage.put
      (GoogleStorage.bucket (Resetable.init "default-b") "other-b")
      "file.txt" "hello" none).1 =
      Except.ok "https://storage.googleapis.com/default-b/file.txt" :=
  ⟨rfl, by decide, rfl, rfl⟩

/-- Claim C1 (amended): every bucket-using operation resolves the selector
exactly once at the start of the call, before any outbound backend request,
except that put resolves it a second time after a successful upload (to
build the returned URL) and copy and move resolve it a second time inside
the nested makePublic call when options.public is true and the primary step
succeeded; in every case exactly one resolution happens before the first
outbound request. -/
theorem selector_resolution_discipline (c : OpCall) (h : c.wellFormed) :
    pullsBeforeFirstReq c.trace = 1 ∧ pullCount c.trace = 1 + c.extraPulls := by
  obtain ⟨h1, h2⟩ := h
  cases c with
  | existsC s loc err ex =>
      cases err <;>
        simp [OpCall.trace, OpCall.extraPulls, GoogleStorage.existsOp,
          Resetable.pull, pullCount, pullsBeforeFirstReq, Event.isPull,
          Event.isBackendReq]
  | signedUrlC s loc expiry err su =>
      cases err <;>
        simp [OpCall.trace, OpCall.extraPulls, GoogleStorage.getSignedUrl,
          Resetable.pull, pullCount, pullsBeforeFirstReq, Event.isPull,
          Event.isBackendReq]
  | putC s loc content err =>
      simp only [OpCall.state] at h2
      cases err with
      | some e =>
          simp [OpCall.trace, OpCall.extraPulls, GoogleStorage.put,
            Resetable.pull, pullCount, pullsBeforeFirstReq, Event.isPull,
            Event.isBackendReq]
      | none =>
          rw [OpCall.trace, put_ok_case s loc content h2]
          simp [OpCall.extraPulls, pullCount, pullsBeforeFirstReq,
            Event.isPull, Event.isBackendReq]
  | deleteC s loc err =>
      cases err <;>
        simp [OpCall.trace, OpCall.extraPulls, GoogleStorage.delete,
          Resetable.pull, pullCount, pullsBeforeFirstReq, Event.isPull,
          Event.isBackendReq]
  | copyC s src dest db pub cE mpE =>
      simp only [OpCall.state] at h1
      have hdb := destB_ne s db h1
      cases cE with
      | some e =>
          rw [OpCall.trace, copy_err_case s src dest db pub mpE e]
          cases pub <;>
            simp [OpCall.extraPulls, pullCount, pullsBeforeFirstReq,
              Event.isPull, Event.isBackendReq]
      | none =>
          cases pub with
          | false =>
              rw [OpCall.trace, copy_ok_nonpub s src dest db mpE hdb]
              simp [OpCall.extraPulls, pullCount, pullsBeforeFirstReq,
                Event.isPull, Event.isBackendReq]
          | true =>
              cases mpE with
              | some e =>
                  rw [OpCall.trace, copy_pub_mpfail s src dest db e]
                  simp [OpCall.extraPulls, pullCount, pullsBeforeFirstReq,
                    Event.isPull, Event.isBackendReq]
              | none =>
                  rw [OpCall.trace, copy_pub_ok s src dest db hdb]
                  simp [OpCall.extraPulls, pullCount, pullsBeforeFirstReq,
                    Event.isPull, Event.isBackendReq]
  | moveC s src dest db pub cE mpE =>
      simp only [OpCall.state] at h1
      have hdb := destB_ne s db h1
      cases cE with
      | some e =>
          rw [OpCall.trace, move_err_case s src dest db pub mpE e]
          cases pub <;>
            simp [OpCall.extraPulls, pullCount, pullsBeforeFirstReq,
              Event.isPull, Event.isBackendReq]
      | none =>
          cases pub with
          | false =>
              rw [OpCall.trace, move_ok_nonpub s src dest db mpE hdb]
              simp [OpCall.extraPulls, pullCount, pullsBeforeFirstReq,
                Event.isPull, Event.isBackendReq]
          | true =>
              cases mpE with
              | some e =>
                  rw [OpCall.trace, move_pub_mpfail s src dest db e]
                  simp [OpCall.extraPulls, pullCount, pullsBeforeFirstReq,
                    Event.isPull, Event.isBackendReq]
              | none =>
                  rw [OpCall.trace, move_pub_ok s src dest db hdb]
                  simp [OpCall.extraPulls, pullCount, pullsBeforeFirstReq,
                    Event.isPull, Event.isBackendReq]
  | makePublicC s loc err =>
      cases err <;>
        simp [OpCall.trace, OpCall.extraPulls, GoogleStorage.makePublic,
          Resetable.pull, pullCount, pullsBeforeFirstReq, Event.isPull,
          Event.isBackendReq]
  | makePrivateC s loc err =>
      cases err <;>
        simp [OpCall.trace, OpCall.extraPulls, GoogleStorage.makePrivate,
          Resetable.pull, pullCount, pullsBeforeFirstReq, Event.isPull,
          Event.isBackendReq]
  | streamC s loc =>
      simp [OpCall.trace, OpCall.extraPulls, GoogleStorage.getStream,
        Resetable.pull, pullCount, pullsBeforeFirstReq, Event.isPull,
        Event.isBackendReq]
  | objectC s loc err =>
      cases err <;>
        simp [OpCall.trace, OpCall.extraPulls, GoogleStorage.getObject,
          Resetable.pull, pullCount, pullsBeforeFirstReq, Event.isPull,
          Event.isBackendReq]
  | downloadC s loc millis tmpE err =>
      cases err <;> cases tmpE <;>
        simp [OpCall.trace, OpCall.extraPulls, GoogleStorage.download,
          Resetable.pull, pullCount, pullsBeforeFirstReq, Event.isPull,
          Event.isBackendReq]

/-- Witness for the amended C1 at a concrete successful put call. -/
theorem selector_resolution_discipline_witness :
    (OpCall.putC (Resetable.init "app-bucket") "file.txt" "hello" none).wellFormed ∧
    (pullsBeforeFirstReq
        (OpCall.putC (Resetable.init "app-bucket") "file.txt" "hello" none).trace = 1 ∧
     pullCount
        (OpCall.putC (Resetable.init "app-bucket") "file.txt" "hello" none).trace =
       1 + (OpCall.putC (Resetable.init "app-bucket") "file.txt" "hello" none).extraPulls) :=
  ⟨⟨by decide, by decide⟩,
   selector_resolution_discipline
     (OpCall.putC (Resetable.init "app-bucket") "file.txt" "hello" none)
     ⟨by decide, by decide⟩⟩

/-- Counterexample to claim C4: copying from the default bucket default-b to
explicit destination bucket dest-b with options.public true issues the
makePublic request against default-b (a fresh selector resolution), not
against the destination bucket dest-b. -/
theorem copy_public_targets_default_bucket :
    Event.makePublicReq "default-b" "t.txt" ∈
      (GoogleStorage.copy (Resetable.init "default-b") "s.txt" "t.txt"
        (some "dest-b") true none none).2.2 ∧
    ((GoogleStorage.copy (Resetable.init "default-b") "s.txt" "t.txt"
        (some "dest-b") true none none).2.2.all
      (fun ev => ev ≠ Event.makePublicReq "dest-b" "t.txt")) = true ∧
    (GoogleStorage.copy (Resetable.init "default-b") "s.txt" "t.txt"
        (some "dest-b") true none none).2.2 =
      [Event.pull "default-b",
       Event.copyReq "default-b" "s.txt" "dest-b" "t.txt",
       Event.pull "default-b",
       Event.makePublicReq "default-b" "t.txt"] := by
  refine ⟨by decide, by decide, rfl⟩

/-- Claim C4 (amended): with options.public true and a successful primary
step, copy and move perform exactly one subsequent makePublic request, and
it targets the object dest in the bucket obtained from a fresh selector
resolution at that moment — the configured original bucket, since the
initial resolution already reset the cell — which coincides with the
destination bucket of the copy or move only when the two happen to be
equal. -/
theorem copy_move_makePublic_target (s : Resetable) (src dest : String)
    (db : Option String) (mpErr : Option Err) (h : s.val ≠ "") :
    ((GoogleStorage.copy s src dest db true none mpErr).2.2.filter
        Event.isMakePublicReq = [Event.makePublicReq s.original dest]) ∧
    ((GoogleStorage.move s src dest db true none mpErr).2.2.filter
        Event.isMakePublicReq = [Event.makePublicReq s.original dest]) := by
  have hdb := destB_ne s db h
  cases mpErr with
  | some e =>
      rw [copy_pub_mpfail s src dest db e, move_pub_mpfail s src dest db e]
      constructor <;> simp [Event.isMakePublicReq]
  | none =>
      rw [copy_pub_ok s src dest db hdb, move_pub_ok s src dest db hdb]
      constructor <;> simp [Event.isMakePublicReq]

/-- Witness for the amended C4 at concrete values. -/
theorem copy_move_makePublic_target_witness :
    (Resetable.init "default-b").val ≠ "" ∧
    (((GoogleStorage.copy (Resetable.init "default-b") "s.txt" "t.txt"
          (some "dest-b") true none none).2.2.filter Event.isMakePublicReq =
        [Event.makePublicReq (Resetable.init "default-b").original "t.txt"]) ∧
     ((GoogleStorage.move (Resetable.init "default-b") "s.txt" "t.txt"
          (some "dest-b") true none none).2.2.filter Event.isMakePublicReq =
        [Event.makePublicReq (Resetable.init "default-b").original "t.txt"])) :=
  ⟨by decide,
   copy_move_makePublic_target (Resetable.init "default-b") "s.txt" "t.txt"
     (some "dest-b") none (by decide)⟩

/-- Claim C5: a successful copy or move resolves to exactly the string
https://storage.googleapis.com/ ++ destBucket ++ / ++ dest for the resolved
destination bucket (the explicit truthy argument, else the pulled source
bucket), both when the publicize step ran (options.public true) and when it
did not. -/
theorem copy_move_resolved_url (s : Resetable) (src dest : String)
    (db : Option String) (pub : Bool) (h : s.val ≠ "") :
    (GoogleStorage.copy s src dest db pub none none).1 =
      Except.ok (GoogleStorage.template (GoogleStorage.destB s db) dest) ∧
    (GoogleStorage.move s src dest db pub none none).1 =
      Except.ok (GoogleStorage.template (GoogleStorage.destB s db) dest) := by
  have hdb := destB_ne s db h
  cases pub with
  | false =>
      rw [copy_ok_nonpub s src dest db none hdb, move_ok_nonpub s src dest db none hdb]
      exact ⟨rfl, rfl⟩
  | true =>
      rw [copy_pub_ok s src dest db hdb, move_pub_ok s src dest db hdb]
      exact ⟨rfl, rfl⟩

/-- Witness for C5 at concrete values, publicize step enabled. -/
theorem copy_move_resolved_url_witness :
    (Resetable.init "default-b").val ≠ "" ∧
    ((GoogleStorage.copy (Resetable.init "default-b") "s.txt" "t.txt"
        (some "dest-b") true none none).1 =
      Except.ok (GoogleStorage.template
        (GoogleStorage.destB (Resetable.init "default-b") (some "dest-b")) "t.txt") ∧
     (GoogleStorage.move (Resetable.init "default-b") "s.txt" "t.txt"
        (some "dest-b") true none none).1 =
      Except.ok (GoogleStorage.template
        (GoogleStorage.destB (Resetable.init "default-b") (some "dest-b")) "t.txt")) :=
  ⟨by decide,
   copy_move_resolved_url (Resetable.init "default-b") "s.txt" "t.txt"
     (some "dest-b") true (by decide)⟩

/-- Whatever the backend outcome and options, the trace of copy starts with
the one selector resolution followed by the primary copy request built from
it and from the defaulted destination bucket. -/
theorem copy_trace_prefix (s : Resetable) (src dest : String)
    (db : Option String) (pub : Bool) (cE mpE : Option Err)
    (h : GoogleStorage.destB s db ≠ "") :
    ∃ rest, (GoogleStorage.copy s src dest db pub cE mpE).2.2 =
      Event.pull s.val ::
        Event.copyReq s.val src (GoogleStorage.destB s db) dest :: rest := by
  cases cE with
  | some e => exact ⟨[], by rw [copy_err_case s src dest db pub mpE e]⟩
  | none =>
      cases pub with
      | false => exact ⟨[], by rw [copy_ok_nonpub s src dest db mpE h]⟩
      | true =>
          cases mpE with
          | some e =>
              exact ⟨[Event.pull s.original, Event.makePublicReq s.original dest],
                by rw [copy_pub_mpfail s src dest db e]⟩
          | none =>
              exact ⟨[Event.pull s.original, Event.makePublicReq s.original dest],
                by rw [copy_pub_ok s src dest db h]⟩

/-- Same prefix fact for move. -/
theorem move_trace_prefix (s : Resetable) (src dest : String)
    (db : Option String) (pub : Bool) (cE mpE : Option Err)
    (h : GoogleStorage.destB s db ≠ "") :
    ∃ rest, (GoogleStorage.move s src dest db pub cE mpE).2.2 =
      Event.pull s.val ::
        Event.moveReq s.val src (GoogleStorage.destB s db) dest :: rest := by
  cases cE with
  | some e => exact ⟨[], by rw [move_err_case s src dest db pub mpE e]⟩
  | none =>
      cases pub with
      | false => exact ⟨[], by rw [move_ok_nonpub s src dest db mpE h]⟩
      | true =>
          cases mpE with
          | some e =>
              exact ⟨[Event.pull s.original, Event.makePublicReq s.original dest],
                by rw [move_pub_mpfail s src dest db e]⟩
          | none =>
              exact ⟨[Event.pull s.original, Event.makePublicReq s.original dest],
                by rw [move_pub_ok s src dest db h]⟩

/-- Claim C6: copy and move resolve the source bucket from the selector at
the start of the call (the first event is that single resolution, the
second the primary request built from it), and the destination bucket of
the primary request is the explicit non-empty destBucket argument when
supplied, else the already-resolved source bucket; no further selector
resolution enters the destination bucket. -/
theorem copy_move_bucket_resolution (s : Resetable) (src dest d : String)
    (pub : Bool) (cE mpE : Option Err) (h : s.val ≠ "") (hd : d ≠ "") :
    (∃ rest, (GoogleStorage.copy s src dest (some d) pub cE mpE).2.2 =
        Event.pull s.val :: Event.copyReq s.val src d dest :: rest) ∧
    (∃ rest, (GoogleStorage.copy s src dest none pub cE mpE).2.2 =
        Event.pull s.val :: Event.copyReq s.val src s.val dest :: rest) ∧
    (∃ rest, (GoogleStorage.move s src dest (some d) pub cE mpE).2.2 =
        Event.pull s.val :: Event.moveReq s.val src d dest :: rest) ∧
    (∃ rest, (GoogleStorage.move s src dest none pub cE mpE).2.2 =
        Event.pull s.val :: Event.moveReq s.val src s.val dest :: rest) := by
  have hsome : GoogleStorage.destB s (some d) = d := by
    simp [GoogleStorage.destB, hd]
  have hnone : GoogleStorage.destB s none = s.val := rfl
  have h1 := copy_trace_prefix s src dest (some d) pub cE mpE (by rw [hsome]; exact hd)
  have h2 := copy_trace_prefix s src dest none pub cE mpE h
  have h3 := move_trace_prefix s src dest (some d) pub cE mpE (by rw [hsome]; exact hd)
  have h4 := move_trace_prefix s src dest none pub cE mpE h
  rw [hsome] at h1 h3
  rw [hnone] at h2 h4
  exact ⟨h1, h2, h3, h4⟩

/-- Witness for C6 at concrete values. -/
theorem copy_move_bucket_resolution_witness :
    (Resetable.init "default-b").val ≠ "" ∧ ("dest-b" : String) ≠ "" ∧
    ((∃ rest, (GoogleStorage.copy (Resetable.init "default-b") "s.txt" "t.txt"
          (some "dest-b") true none none).2.2 =
        Event.pull (Resetable.init "default-b").val ::
          Event.copyReq (Resetable.init "default-b").val "s.txt" "dest-b" "t.txt" ::
            rest) ∧
     (∃ rest, (GoogleStorage.copy (Resetable.init "default-b") "s.txt" "t.txt"
          none true none none).2.2 =
        Event.pull (Resetable.init "default-b").val ::
          Event.copyReq (Resetable.init "default-b").val "s.txt"
            (Resetable.init "default-b").val "t.txt" :: rest) ∧
     (∃ rest, (GoogleStorage.move (Resetable.init "default-b") "s.txt" "t.txt"
          (some "dest-b") true none none).2.2 =
        Event.pull (Resetable.init "default-b").val ::
          Event.moveReq (Resetable.init "default-b").val "s.txt" "dest-b" "t.txt" ::
            rest) ∧
     (∃ rest, (GoogleStorage.move (Resetable.init "default-b") "s.txt" "t.txt"
          none true none none).2.2 =
        Event.pull (Resetable.init "default-b").val ::
          Event.moveReq (Resetable.init "default-b").val "s.txt"
            (Resetable.init "default-b").val "t.txt" :: rest)) :=
  ⟨by decide, by decide,
   copy_move_bucket_resolution (Resetable.init "default-b") "s.txt" "t.txt"
     "dest-b" true none none (by decide) (by decide)⟩

/-- Claim C7: when options.public is true, the primary copy or move step
succeeds and the subsequent makePublic fails with error e, the call rejects
with exactly e and the full trace shows the primary request followed only
by the makePublic request — no compensating request of any kind and no
partial-success result, even though the data operation itself completed. -/
theorem copy_move_makePublic_failure (s : Resetable) (src dest : String)
    (db : Option String) (e : Err) :
    (GoogleStorage.copy s src dest db true none (some e)).1 = Except.error e ∧
    (GoogleStorage.copy s src dest db true none (some e)).2.2 =
      [Event.pull s.val, Event.copyReq s.val src (GoogleStorage.destB s db) dest,
       Event.pull s.original, Event.makePublicReq s.original dest] ∧
    (GoogleStorage.move s src dest db true none (some e)).1 = Except.error e ∧
    (GoogleStorage.move s src dest db true none (some e)).2.2 =
      [Event.pull s.val, Event.moveReq s.val src (GoogleStorage.destB s db) dest,
       Event.pull s.original, Event.makePublicReq s.original dest] := by
  rw [copy_pub_mpfail s src dest db e, move_pub_mpfail s src dest db e]
  exact ⟨rfl, rfl, rfl, rfl⟩

/-- Claim C8: a successful download(location) resolves to exactly the path
tmp/MILLIS-location (MILLIS the decimal digits of the epoch-millis clock
reading), the tmp directory is created (mkdir event) before the backend
download request exactly when it does not already exist, and nothing
follows the download request in the trace — no cleanup is performed. -/
theorem download_path_and_effects (s : Resetable) (location : String)
    (millis : Nat) (tmpE : Bool) :
    (GoogleStorage.download s location millis tmpE none).1 =
      Except.ok ("tmp" ++ "/" ++ Nat.repr millis ++ "-" ++ location) ∧
    (GoogleStorage.download s location millis tmpE none).2.2 =
      (if tmpE then [] else [Event.mkdir "tmp"]) ++
        [Event.pull s.val,
         Event.downloadReq s.val location
           ("tmp" ++ "/" ++ Nat.repr millis ++ "-" ++ location)] := by
  cases tmpE <;> exact ⟨rfl, rfl⟩
